import Mathlib

/-!
Verification of the foxtrading i18n core: the translation store
(class I18n, assets i18n engine) and the language detector
(assets/js/modules/language-detector.js), shallowly embedded in Lean.

Dictionaries are JSON trees whose meaningful values are leaf strings and
nested mappings, per the dictionary schema.  JavaScript objects are
embedded as association lists; `undefined` becomes `Option.none`.
Diagnostic console output is embedded as a Boolean `warned` flag, network
fetches as a counter, and DOM mutation is out of scope.
-/

/-- JSON-like dictionary value: a leaf string or a nested mapping.
Property access on a leaf for a dictionary-path key is undefined. -/
inductive JValue where
  | str (s : String)
  | obj (fields : List (String × JValue))

/-- JavaScript String.prototype.split with a one-character separator:
splits at every occurrence and keeps empty pieces, so the result is never
empty and the empty string splits to a single empty piece. -/
def splitChars (sep : Char) : List Char → List (List Char)
  | [] => [[]]
  | c :: rest =>
      let r := splitChars sep rest
      if c = sep then [] :: r
      else
        match r with
        | [] => [[c]]
        | h :: t => (c :: h) :: t

/-- String-level wrapper for splitChars. -/
def jsSplit (s : String) (sep : Char) : List String :=
  (splitChars sep s.data).map String.mk

/-- JavaScript String.prototype.toLowerCase, characterwise. -/
def jsToLower (s : String) : String :=
  String.mk (s.data.map Char.toLower)

/-- Property lookup in an embedded JavaScript object (association list). -/
def lookupField : List (String × JValue) → String → Option JValue
  | [], _ => none
  | (k, v) :: rest, key => if k = key then some v else lookupField rest key

/-- One step of the reduce in I18n._getNestedProperty:
current && current[key] !== undefined ? current[key] : undefined. -/
def getProp : JValue → String → Option JValue
  | JValue.str _, _ => none
  | JValue.obj fields, key => lookupField fields key

/-- I18n._getNestedProperty: path.split(".").reduce over the object. -/
def getNestedProperty (v : JValue) (path : String) : Option JValue :=
  (jsSplit path '.').foldl
    (fun current key =>
      match current with
      | none => none
      | some c => getProp c key)
    (some v)

/-- Parameter lookup for interpolation (params object). -/
def lookupParam : List (String × String) → String → Option String
  | [], _ => none
  | (k, v) :: rest, key => if k = key then some v else lookupParam rest key

/-- I18n._interpolate over the regex of two opening braces, one or more
characters other than a closing brace, and two closing braces: each match
is replaced by the trimmed captured parameter value when present, and left
verbatim otherwise.  The scan is left to right and non-overlapping, as for
a global regex replace. -/
def interpolateChars (params : List (String × String)) : List Char → List Char
  | [] => []
  | '{' :: '{' :: rest =>
      let run := rest.takeWhile (fun c => c ≠ '}')
      match hrest : rest.dropWhile (fun c => c ≠ '}') with
      | '}' :: '}' :: tail =>
          if run.isEmpty then
            '{' :: interpolateChars params ('{' :: rest)
          else
            match lookupParam params (String.mk run).trim with
            | some v => v.data ++ interpolateChars params tail
            | none => '{' :: '{' :: (run ++ '}' :: '}' :: interpolateChars params tail)
      | _ =>
          '{' :: interpolateChars params ('{' :: rest)
  | c :: rest => c :: interpolateChars params rest
termination_by l => l.length
decreasing_by
  all_goals simp_wf
  all_goals first
    | omega
    | · have hall : ∀ l : List Char, (l.dropWhile (fun c => decide (c ≠ '}'))).length ≤ l.length := by
          intro l
          induction l with
          | nil => simp [List.dropWhile]
          | cons a l ih =>
            rw [List.dropWhile_cons]
            by_cases h : (decide (a ≠ '}')) = true
            · simp only [h, if_true]
              exact le_trans ih (by simp)
            · simp only [h]
              simp
        have h1 := hall rest
        rw [hrest] at h1
        simp at h1
        omega

/-- A languageChanged notification payload. -/
structure LangEvent where
  previous : String
  current : String
deriving DecidableEq

/-- State of an I18n instance.  The cache Map mirrors the translations
object and is bookkeeping only, so it is not embedded; fetchCount counts
network fetches issued and events records emitted languageChanged
notifications. -/
structure I18nState where
  currentLanguage : String
  fallbackLanguage : String
  supportedLanguages : List String
  translations : List (String × JValue)
  translationPromises : List String
  fetchCount : Nat
  events : List LangEvent

/-- Target language of a translate call: lang || this.currentLanguage,
where a null or empty argument is falsy. -/
def targetLangOf (st : I18nState) (lang : Option String) : String :=
  match lang with
  | some l => if l = "" then st.currentLanguage else l
  | none => st.currentLanguage

/-- Dictionary chosen by translate:
this.translations[targetLang] || this.translations[this.fallbackLanguage] || emptyObject. -/
def effectiveDict (st : I18nState) (lang : Option String) : JValue :=
  match lookupField st.translations (targetLangOf st lang) with
  | some d => d
  | none =>
      match lookupField st.translations st.fallbackLanguage with
      | some d => d
      | none => JValue.obj []

/-- Value returned by translate together with whether a missing-key
warning was logged. -/
structure TranslateResult where
  value : JValue
  warned : Bool

/-- I18n.translate(key, params, lang). -/
def I18n.translate (st : I18nState) (key : String) (params : List (String × String))
    (lang : Option String) : TranslateResult :=
  let dict := effectiveDict st lang
  match getNestedProperty dict key with
  | none => ⟨JValue.str key, true⟩
  | some t =>
      match t with
      | JValue.str s =>
          if params.isEmpty then ⟨JValue.str s, false⟩
          else ⟨JValue.str (String.mk (interpolateChars params s.data)), false⟩
      | JValue.obj fields => ⟨JValue.obj fields, false⟩

/-- How a suspended setLanguage call will observe its dictionary load:
the dictionary was already cached, this call created the fetch, or this
call joined a fetch already in flight (the pending-promise map). -/
inductive LoadMode where
  | cached (d : JValue)
  | creator
  | joiner

/-- A setLanguage activation suspended at its await, remembering the
coerced language tag and how the load is observed. -/
structure PendingCall where
  lang : String
  mode : LoadMode

/-- Synchronous prefix of I18n.setLanguage up to the await of
loadTranslations: unsupported tags are substituted by the fallback, an
already-active tag returns at once, and loadTranslations either finds the
cached dictionary, joins the pending promise for the tag, or starts the
fetch (incrementing the fetch counter and registering the promise). -/
def setLanguageSync (st : I18nState) (lang : String) :
    I18nState × Option PendingCall :=
  let lang1 := if st.supportedLanguages.contains lang then lang else st.fallbackLanguage
  if lang1 = st.currentLanguage then
    (st, none)
  else
    match lookupField st.translations lang1 with
    | some d => (st, some ⟨lang1, LoadMode.cached d⟩)
    | none =>
        if st.translationPromises.contains lang1 then
          (st, some ⟨lang1, LoadMode.joiner⟩)
        else
          ({ st with
              fetchCount := st.fetchCount + 1,
              translationPromises := lang1 :: st.translationPromises },
            some ⟨lang1, LoadMode.creator⟩)

/-- Tail of I18n.setLanguage after a successful load: update the active
language and emit languageChanged with the previous and current tags. -/
def applyLanguageChange (st : I18nState) (lang : String) : I18nState :=
  { st with
      currentLanguage := lang,
      events := st.events ++ [⟨st.currentLanguage, lang⟩] }

/-- Resolution value of I18n._fetchTranslations for a tag, given the
ambient fetch behaviour: the fetched dictionary on success; on failure the
cached fallback dictionary when the tag differs from the fallback language
and that dictionary is cached, and otherwise a rejection (none). -/
def fetchTranslationsOutcome (fetchResult : String → Option JValue)
    (st : I18nState) (lang : String) : Option JValue :=
  match fetchResult lang with
  | some d => some d
  | none =>
      if lang = st.fallbackLanguage then none
      else lookupField st.translations st.fallbackLanguage

/-- Resumption of a suspended setLanguage call once its load settles.
The creator stores the loaded dictionary (the promise entry is kept on
success and deleted on failure, as in loadTranslations); a joiner only
observes the shared promise.  On success the active language switches and
languageChanged is emitted; on failure the error propagates to the caller
and the state of the store is otherwise untouched. -/
def setLanguageResume (fetchResult : String → Option JValue)
    (st : I18nState) (p : PendingCall) : I18nState × Except String Unit :=
  match p.mode with
  | LoadMode.cached _ => (applyLanguageChange st p.lang, Except.ok ())
  | LoadMode.creator =>
      match fetchTranslationsOutcome fetchResult st p.lang with
      | some d =>
          (applyLanguageChange
            { st with translations := (p.lang, d) :: st.translations } p.lang,
           Except.ok ())
      | none =>
          ({ st with translationPromises := st.translationPromises.erase p.lang },
           Except.error p.lang)
  | LoadMode.joiner =>
      match fetchTranslationsOutcome fetchResult st p.lang with
      | some _ => (applyLanguageChange st p.lang, Except.ok ())
      | none => (st, Except.error p.lang)

/-- A whole setLanguage call running without interleaving: the
synchronous prefix followed at once by the resumption. -/
def setLanguageCall (fetchResult : String → Option JValue)
    (st : I18nState) (lang : String) : I18nState × Except String Unit :=
  match setLanguageSync st lang with
  | (st1, none) => (st1, Except.ok ())
  | (st1, some p) => setLanguageResume fetchResult st1 p

/-- Two setLanguage calls for the same tag issued in rapid succession on
the single-threaded event loop, both before either load completes: both
synchronous prefixes run first, then the first activation resumes, then
the second.  With a deterministic fetch behaviour the value observed by a
joiner at its resumption coincides with the resolution value of the
shared promise. -/
def twoRapidSetLanguage (fetchResult : String → Option JValue)
    (st0 : I18nState) (lang : String) : I18nState :=
  let s1 := setLanguageSync st0 lang
  let s2 := setLanguageSync s1.1 lang
  let st3 :=
    match s1.2 with
    | none => s2.1
    | some p => (setLanguageResume fetchResult s2.1 p).1
  match s2.2 with
  | none => st3
  | some p => (setLanguageResume fetchResult st3 p).1

/-- Configuration of a LanguageDetector instance (constructor options). -/
structure DetectorConfig where
  supportedLanguages : List String
  defaultLanguage : String
  fallbackLanguage : String

/-- Constructor defaults of the Singapore-market detector. -/
def defaultDetectorConfig : DetectorConfig :=
  ⟨["en-GB", "es-MX"], "en-GB", "en-GB"⟩

/-- Fixed Singapore timezone identifiers set by the constructor. -/
def singaporeTimezones : List String :=
  ["Asia/Singapore", "Singapore"]

/-- Fixed Mexican timezone identifiers set by the constructor. -/
def mexicanTimezones : List String :=
  ["America/Mexico_City", "America/Cancun", "America/Merida",
   "America/Monterrey", "America/Mazatlan", "America/Chihuahua",
   "America/Hermosillo", "America/Tijuana", "America/Bahia_Banderas"]

/-- Fixed Asia-Pacific English-region timezone identifiers set by the
constructor. -/
def englishRegionTimezones : List String :=
  ["Asia/Hong_Kong", "Asia/Kuala_Lumpur", "Australia/Sydney",
   "Australia/Melbourne", "Pacific/Auckland", "Asia/Manila",
   "Asia/Bangkok", "Asia/Jakarta"]

/-- Fixed detection priorities set by the constructor. -/
def prioURL : Nat := 10
def prioManual : Nat := 9
def prioStored : Nat := 8
def prioTzSingapore : Nat := 7
def prioTzMexico : Nat := 6
def prioTzEnglishRegion : Nat := 5
def prioBrowserExact : Nat := 4
def prioBrowserBase : Nat := 3
def prioGeolocation : Nat := 2
def prioDefaultSignal : Nat := 1

/-- Contents of localStorage under the four foxtrading_sg_ storage keys
(language, detectionMethod, lastDetection, userOverride); none is an
absent key. -/
structure StorageState where
  language : Option String
  detectionMethod : Option String
  lastDetection : Option String
  userOverride : Option String

/-- Ambient browser environment read by the detection signals.  The
geolocation source is abstracted to its outcome (detected flag and
language), since its coordinate bounding boxes involve floating point;
its priority is the fixed geolocation priority, as preset in the source.
parseTime embeds Date parsing of a stored timestamp to epoch
milliseconds, none embedding an invalid date, and nowMs and nowISO embed
the current clock. -/
structure BrowserEnv where
  pathname : String
  queryLang : Option String
  queryLanguage : Option String
  queryLocale : Option String
  storage : StorageState
  timezone : Option String
  browserLanguages : List String
  geoDetected : Bool
  geoLanguage : String
  nowMs : Int
  nowISO : String
  parseTime : String → Option Int

/-- One detection signal.  The language field holds the empty string when
the source detected nothing (JavaScript null), and priority holds its
preset or branch-assigned value; confidence is not modelled since
resolution compares priorities only. -/
structure Signal where
  detected : Bool
  language : String
  priority : Nat
  source : String
  isUserOverride : Bool
  method : Option String

/-- JavaScript a || b over nullable strings: the empty string is falsy. -/
def jsOrString (a b : Option String) : Option String :=
  match a with
  | some s => if s = "" then b else some s
  | none => b

/-- First character replacement, as in String.prototype.replace with a
string pattern, which replaces only the first occurrence. -/
def replaceFirstChar : List Char → Char → Char → List Char
  | [], _, _ => []
  | c :: rest, a, b =>
      if c = a then b :: rest else c :: replaceFirstChar rest a b

/-- Shared cleanup langCode.toLowerCase().replace(underscore, hyphen). -/
def cleanLangCode (s : String) : String :=
  String.mk (replaceFirstChar (jsToLower s).data '_' '-')

/-- LanguageDetector._normalizeLanguageCode: empty input is falsy and
yields null; Spanish bases map to es-MX and English bases to en-GB; other
codes pass through only when already supported. -/
def normalizeLanguageCode (cfg : DetectorConfig) (langCode : String) : Option String :=
  if langCode = "" then none
  else
    let clean := cleanLangCode langCode
    let base := (jsSplit clean '-').headD ""
    if base = "es" then some "es-MX"
    else if base = "en" then some "en-GB"
    else if cfg.supportedLanguages.contains clean then some clean
    else none

/-- Result of LanguageDetector._normalizeBrowserLanguage. -/
structure NormalizedLang where
  base : String
  region : Option String
  full : String

/-- LanguageDetector._normalizeBrowserLanguage: all Spanish variants map
to es-MX, all English variants to en-GB, anything else to its base. -/
def normalizeBrowserLanguage (browserLang : String) : NormalizedLang :=
  let clean := cleanLangCode browserLang
  let parts := jsSplit clean '-'
  let base := parts.headD ""
  let full :=
    if base = "es" then "es-MX"
    else if base = "en" then "en-GB"
    else base
  ⟨base, parts.get? 1, full⟩

/-- Query-parameter part of LanguageDetector._detectFromURL: the first
truthy of the lang, language and locale query parameters is normalized
and wins when supported, with method query. -/
def detectFromURLQuery (cfg : DetectorConfig) (env : BrowserEnv) : Signal :=
  let base : Signal := ⟨false, "", prioURL, "url", false, none⟩
  match jsOrString env.queryLang (jsOrString env.queryLanguage env.queryLocale) with
  | none => base
  | some p =>
      if p = "" then base
      else
        match normalizeLanguageCode cfg p with
        | some n =>
            if cfg.supportedLanguages.contains n then
              { base with detected := true, language := n, method := some "query" }
            else base
        | none => base

/-- LanguageDetector._detectFromURL: a supported leading path segment
wins with method path; otherwise control falls through to the
query-parameter check. -/
def detectFromURL (cfg : DetectorConfig) (env : BrowserEnv) : Signal :=
  let base : Signal := ⟨false, "", prioURL, "url", false, none⟩
  let segs := (jsSplit env.pathname '/').filter (fun s => s ≠ "")
  match segs.head? with
  | some seg =>
      if cfg.supportedLanguages.contains seg then
        { base with detected := true, language := seg, method := some "path" }
      else detectFromURLQuery cfg env
  | none => detectFromURLQuery cfg env

/-- LanguageDetector._detectFromStorage: a supported stored language is
detected at stored priority, raised to manual priority when the stored
user-override flag is the string true.  The method field of the signal is
left unset by the source. -/
def detectFromStorage (cfg : DetectorConfig) (env : BrowserEnv) : Signal :=
  let base : Signal := ⟨false, "", prioStored, "storage", false, none⟩
  match env.storage.language with
  | none => base
  | some sl =>
      if sl ≠ "" ∧ cfg.supportedLanguages.contains sl then
        let ovr := env.storage.userOverride = some "true"
        { base with
            detected := true, language := sl, isUserOverride := ovr,
            priority := if ovr then prioManual else prioStored }
      else base

/-- LanguageDetector._detectFromTimezone: Singapore timezones map to
en-GB at their priority, Mexican timezones to es-MX, Asia-Pacific English
regions to en-GB; other timezones detect nothing (the priority field of
an undetected timezone signal is unset in the source and unused). -/
def detectFromTimezone (env : BrowserEnv) : Signal :=
  let base : Signal := ⟨false, "", 0, "timezone", false, none⟩
  match env.timezone with
  | none => base
  | some tz =>
      if singaporeTimezones.contains tz then
        { base with detected := true, language := "en-GB", priority := prioTzSingapore }
      else if mexicanTimezones.contains tz then
        { base with detected := true, language := "es-MX", priority := prioTzMexico }
      else if englishRegionTimezones.contains tz then
        { base with detected := true, language := "en-GB", priority := prioTzEnglishRegion }
      else base

/-- Loop body of LanguageDetector._detectFromBrowser over the ordered
browser language list: an exact supported match of the normalized full
tag returns immediately; a supported base match overwrites the
accumulated result and the scan continues looking for exact matches. -/
def scanBrowserLangs (cfg : DetectorConfig) : List String → Signal → Signal
  | [], acc => acc
  | l :: rest, acc =>
      let n := normalizeBrowserLanguage l
      if cfg.supportedLanguages.contains n.full then
        ⟨true, n.full, prioBrowserExact, "browser", false, none⟩
      else if cfg.supportedLanguages.contains n.base then
        scanBrowserLangs cfg rest ⟨true, n.base, prioBrowserBase, "browser", false, none⟩
      else
        scanBrowserLangs cfg rest acc

/-- LanguageDetector._detectFromBrowser. -/
def detectFromBrowser (cfg : DetectorConfig) (env : BrowserEnv) : Signal :=
  scanBrowserLangs cfg env.browserLanguages ⟨false, "", 0, "browser", false, none⟩

/-- LanguageDetector._detectFromGeolocation, abstracted to its outcome;
the priority field is preset to the geolocation priority in the source. -/
def detectFromGeolocation (env : BrowserEnv) : Signal :=
  ⟨env.geoDetected, env.geoLanguage, prioGeolocation, "geolocation", false, none⟩

/-- LanguageDetector._isRecentDetection: false when no timestamp is
stored or the stored string does not parse as a date; otherwise the
difference to now must be under thirty days in milliseconds (the float
day quotient compared to 30 is equivalent to this integer comparison). -/
def isRecentDetection (env : BrowserEnv) : Bool :=
  match env.storage.lastDetection with
  | none => false
  | some s =>
      if s = "" then false
      else
        match env.parseTime s with
        | none => false
        | some t => decide (env.nowMs - t < 30 * (1000 * 60 * 60 * 24))

/-- Winning detection result, keeping the fields resolution and storage
depend on. -/
structure DetectResult where
  language : String
  method : Option String
  priority : Nat

/-- Options of LanguageDetector.detectLanguage. -/
structure DetectOptions where
  checkURL : Bool
  checkStorage : Bool
  checkBrowser : Bool
  checkTimezone : Bool
  checkGeolocation : Bool
  respectUserChoice : Bool

/-- Defaults destructured in LanguageDetector.detectLanguage. -/
def defaultDetectOptions : DetectOptions :=
  ⟨true, true, true, true, false, true⟩

/-- Spread of a winning signal into the best result. -/
def signalToResult (s : Signal) : DetectResult :=
  ⟨s.language, s.method, s.priority⟩

/-- One comparison step of detectLanguage: a detected signal whose
priority strictly exceeds the best so far (and whose extra gate, the
recency check for the stored signal, holds) becomes the best result. -/
def considerSignal (best : DetectResult) (s : Signal) (gate : Bool) : DetectResult :=
  if s.detected && decide (best.priority < s.priority) && gate then signalToResult s else best

/-- A signal source behind its enabling option. -/
def stepSignal (enabled : Bool) (best : DetectResult) (s : Signal) (gate : Bool) : DetectResult :=
  if enabled then considerSignal best s gate else best

/-- LanguageDetector._storeDetection: persists language, method (or
unknown when unset or empty), the current timestamp, and the
user-override flag rendered as a string. -/
def storeDetection (env : BrowserEnv) (r : DetectResult) (isUserChoice : Bool) : StorageState :=
  { language := some r.language,
    detectionMethod := some (match r.method with
      | some m => if m = "" then "unknown" else m
      | none => "unknown"),
    lastDetection := some env.nowISO,
    userOverride := some (if isUserChoice then "true" else "false") }

/-- Signal-fusion loop of LanguageDetector.detectLanguage: signals are
evaluated in the fixed order URL, storage, timezone, browser,
geolocation, each replacing the best result only on strictly higher
priority, starting from the default-language result.  The embedding is
total, so every pass completes normally and the catch branch of the
source is unreachable. -/
def detectBest (cfg : DetectorConfig) (env : BrowserEnv) (opts : DetectOptions) :
    DetectResult :=
  stepSignal opts.checkGeolocation
    (stepSignal opts.checkBrowser
      (stepSignal opts.checkTimezone
        (stepSignal (opts.checkStorage && opts.respectUserChoice)
          (stepSignal opts.checkURL
            ⟨cfg.defaultLanguage, some "default", prioDefaultSignal⟩
            (detectFromURL cfg env) true)
          (detectFromStorage cfg env) (isRecentDetection env))
        (detectFromTimezone env) true)
      (detectFromBrowser cfg env) true)
    (detectFromGeolocation env) true

/-- Final validation and persistence of LanguageDetector.detectLanguage:
an unsupported winner collapses to the fallback language with method
fallback and default priority, and the validated result is stored with
the user-override flag false. -/
def detectLanguage (cfg : DetectorConfig) (env : BrowserEnv) (opts : DetectOptions) :
    DetectResult × StorageState :=
  let final :=
    if cfg.supportedLanguages.contains (detectBest cfg env opts).language then
      detectBest cfg env opts
    else ⟨cfg.fallbackLanguage, some "fallback", prioDefaultSignal⟩
  (final, storeDetection env final false)

/-- Whether a browser language entry is an exact supported match of its
normalized full tag. -/
def isExactMatch (cfg : DetectorConfig) (l : String) : Bool :=
  cfg.supportedLanguages.contains (normalizeBrowserLanguage l).full

/-- Whether a browser language entry is a supported base-language match. -/
def isBaseMatch (cfg : DetectorConfig) (l : String) : Bool :=
  cfg.supportedLanguages.contains (normalizeBrowserLanguage l).base

/-- The browser signal produced by an exact match on entry l. -/
def exactSignal (l : String) : Signal :=
  ⟨true, (normalizeBrowserLanguage l).full, prioBrowserExact, "browser", false, none⟩

/-- The browser signal produced by a base match on entry l. -/
def baseSignal (l : String) : Signal :=
  ⟨true, (normalizeBrowserLanguage l).base, prioBrowserBase, "browser", false, none⟩

/-- Environment with a URL path segment selecting en-GB together with a
recent stored manual preference for es-MX. -/
def envC2 : BrowserEnv :=
  { pathname := "/en-GB/about"
    queryLang := none
    queryLanguage := none
    queryLocale := none
    storage := ⟨some "es-MX", some "manual", some "2025-01-01T00:00:00Z", some "true"⟩
    timezone := none
    browserLanguages := []
    geoDetected := false
    geoLanguage := ""
    nowMs := 1000
    nowISO := "2025-01-02T00:00:00Z"
    parseTime := fun _ => some 0 }

/-- Detector configured with bare base codes as the supported languages,
so that base-language matches are reachable. -/
def cfgBase : DetectorConfig := ⟨["en", "es"], "en", "en"⟩

/-- Environment whose ordered browser language list has two base-language
matches for cfgBase and no exact match. -/
def envC5 : BrowserEnv :=
  { pathname := "/"
    queryLang := none
    queryLanguage := none
    queryLocale := none
    storage := ⟨none, none, none, none⟩
    timezone := none
    browserLanguages := ["en-US", "es-AR"]
    geoDetected := false
    geoLanguage := ""
    nowMs := 0
    nowISO := ""
    parseTime := fun _ => none }

/-- Environment with a stored preference for es-MX whose timestamp is far
older than the thirty-day recency window, no URL signal, and a Singapore
timezone. -/
def envC7 : BrowserEnv :=
  { pathname := "/"
    queryLang := none
    queryLanguage := none
    queryLocale := none
    storage := ⟨some "es-MX", some "browser", some "2020-01-01T00:00:00Z", some "false"⟩
    timezone := some "Asia/Singapore"
    browserLanguages := []
    geoDetected := false
    geoLanguage := ""
    nowMs := 10000000000
    nowISO := "2025-01-02T00:00:00Z"
    parseTime := fun _ => some 0 }

/-- Store whose active language differs from es-MX, with the default
dictionary already cached and no load in flight. -/
def stC3 : I18nState :=
  { currentLanguage := "en-SG"
    fallbackLanguage := "en-SG"
    supportedLanguages := ["en-SG", "es-MX"]
    translations := [("en-SG", JValue.obj [])]
    translationPromises := []
    fetchCount := 0
    events := [] }

/-- Fetch behaviour that succeeds for es-MX and fails otherwise. -/
def fetchC3 : String → Option JValue :=
  fun l => if l = "es-MX" then some (JValue.obj [("k", JValue.str "v")]) else none

/-- Store whose active language fr is not in the supported list. -/
def stC8 : I18nState :=
  { currentLanguage := "fr"
    fallbackLanguage := "en-SG"
    supportedLanguages := ["en-SG", "es-MX"]
    translations := []
    translationPromises := []
    fetchCount := 0
    events := [] }

/-- Fetch behaviour that succeeds for the fallback tag en-SG only. -/
def fetchC8 : String → Option JValue :=
  fun l => if l = "en-SG" then some (JValue.obj []) else none

/-- Store with a loaded es-MX dictionary missing the key greet while the
cached fallback dictionary contains it. -/
def stC1 : I18nState :=
  { currentLanguage := "es-MX"
    fallbackLanguage := "en-SG"
    supportedLanguages := ["en-SG", "es-MX"]
    translations := [("es-MX", JValue.obj [("x", JValue.str "hola")]),
                     ("en-SG", JValue.obj [("greet", JValue.str "hello")])]
    translationPromises := []
    fetchCount := 0
    events := [] }

/-- Store whose dictionary maps the key nav to a nested mapping. -/
def stC10 : I18nState :=
  { currentLanguage := "en-SG"
    fallbackLanguage := "en-SG"
    supportedLanguages := ["en-SG", "es-MX"]
    translations := [("en-SG", JValue.obj [("nav", JValue.obj [("home", JValue.str "Home")])])]
    translationPromises := []
    fetchCount := 0
    events := [] }

/-- Store with nothing cached, on whose tags every fetch fails. -/
def stC4 : I18nState :=
  { currentLanguage := "en-SG"
    fallbackLanguage := "en-SG"
    supportedLanguages := ["en-SG", "es-MX"]
    translations := []
    translationPromises := []
    fetchCount := 0
    events := [] }

/-- Fetch behaviour that always fails. -/
def fetchFail : String → Option JValue := fun _ => none

/-- splitChars always produces at least one piece. -/
theorem splitChars_ne_nil (sep : Char) : ∀ l : List Char, splitChars sep l ≠ [] := by
  intro l
  cases l with
  | nil => simp [splitChars]
  | cons c rest =>
    unfold splitChars
    dsimp only
    by_cases h : c = sep
    · simp [h]
    · simp only [h, if_false]
      cases splitChars sep rest with
      | nil => simp
      | cons h t => simp

/-- Nested lookup propagates an undefined current value. -/
theorem foldl_getProp_none (keys : List String) :
    keys.foldl
      (fun current key =>
        match current with
        | none => none
        | some c => getProp c key)
      (none : Option JValue) = none := by
  induction keys with
  | nil => rfl
  | cons k rest ih => simpa using ih

/-- Every dot-path key is undefined in the empty dictionary. -/
theorem getNestedProperty_emptyObj (key : String) :
    getNestedProperty (JValue.obj []) key = none := by
  unfold getNestedProperty jsSplit
  have h := splitChars_ne_nil '.' key.data
  cases hs : splitChars '.' key.data with
  | nil => exact absurd hs h
  | cons k rest =>
    simp only [List.map_cons, List.foldl_cons]
    have hfirst : getProp (JValue.obj []) (String.mk k) = none := rfl
    simpa [hfirst] using foldl_getProp_none (rest.map String.mk)

/-- C1, amended.  translate consults a single dictionary, the one for the
requested (or active) language when loaded and otherwise the
FallbackLanguage dictionary (or the empty dictionary): when the requested
language dictionary is loaded and the dot-path key is undefined in it,
the raw key string is returned with a diagnostic warning, regardless of
the fallback dictionary; when the requested language dictionary is not
loaded, the fallback dictionary is consulted instead, with the same
raw-key-and-warning behaviour on a miss there; with neither dictionary
loaded every key misses.  The embedding is a total function, so translate
never throws.  The original claim, that a key missing from the loaded
requested-language dictionary is retried against the fallback dictionary,
is refuted by the counterexample. -/
theorem translate_miss_behavior (st : I18nState) (key : String)
    (params : List (String × String)) (lang : Option String) :
    (∀ d, lookupField st.translations (targetLangOf st lang) = some d →
       getNestedProperty d key = none →
       I18n.translate st key params lang = ⟨JValue.str key, true⟩) ∧
    (lookupField st.translations (targetLangOf st lang) = none →
     ∀ d, lookupField st.translations st.fallbackLanguage = some d →
       getNestedProperty d key = none →
       I18n.translate st key params lang = ⟨JValue.str key, true⟩) ∧
    (lookupField st.translations (targetLangOf st lang) = none →
     lookupField st.translations st.fallbackLanguage = none →
     I18n.translate st key params lang = ⟨JValue.str key, true⟩) := by
  refine ⟨?_, ?_, ?_⟩
  · intro d hd hmiss
    simp only [I18n.translate, effectiveDict, hd, hmiss]
  · intro hnone d hd hmiss
    simp only [I18n.translate, effectiveDict, hnone, hd, hmiss]
  · intro hnone hfb
    simp only [I18n.translate, effectiveDict, hnone, hfb, getNestedProperty_emptyObj]

/-- C1, counterexample.  In stC1 the dictionary of the active language
es-MX is loaded but lacks the key greet, while the cached fallback
dictionary resolves greet to hello; translate returns the raw key with a
warning instead of retrying the fallback dictionary, so the claimed
key-level fallback retry does not happen. -/
theorem translate_no_key_level_fallback_cex :
    (lookupField stC1.translations (targetLangOf stC1 none)).isSome = true ∧
    getNestedProperty (JValue.obj [("x", JValue.str "hola")]) "greet" = none ∧
    stC1.fallbackLanguage = "en-SG" ∧
    lookupField stC1.translations "en-SG" = some (JValue.obj [("greet", JValue.str "hello")]) ∧
    getNestedProperty (JValue.obj [("greet", JValue.str "hello")]) "greet"
      = some (JValue.str "hello") ∧
    I18n.translate stC1 "greet" [] none = ⟨JValue.str "greet", true⟩ ∧
    JValue.str "greet" ≠ JValue.str "hello" := by
  refine ⟨rfl, rfl, rfl, rfl, rfl, rfl, ?_⟩
  intro h
  simp at h

/-- C1, witness.  A key missing from the loaded active dictionary of stC1
comes back as the raw key with a warning. -/
theorem translate_miss_behavior_witness :
    I18n.translate stC1 "zzz" [] none = ⟨JValue.str "zzz", true⟩ :=
  (translate_miss_behavior stC1 "zzz" [] none).1 (JValue.obj [("x", JValue.str "hola")]) rfl rfl

/-- C10.  When the dot-path key resolves to an internal branch node of
the chosen dictionary, translate returns that nested mapping itself, with
no warning and without entering the interpolation branch, which is
reserved for string values. -/
theorem translate_branch_node (st : I18nState) (key : String)
    (params : List (String × String)) (lang : Option String)
    (fields : List (String × JValue))
    (h : getNestedProperty (effectiveDict st lang) key = some (JValue.obj fields)) :
    I18n.translate st key params lang = ⟨JValue.obj fields, false⟩ := by
  simp only [I18n.translate, h]

/-- C10, witness.  In stC10 the key nav resolves to the nested mapping
holding home, and translate returns that mapping unchanged even with a
non-empty params object. -/
theorem translate_branch_node_witness :
    I18n.translate stC10 "nav" [("name", "Ana")] none
      = ⟨JValue.obj [("home", JValue.str "Home")], false⟩ :=
  translate_branch_node stC10 "nav" [("name", "Ana")] none
    [("home", JValue.str "Home")] rfl

/-- C8, amended.  Calling setLanguage with a supported tag that is
already the active language is a no-op: no dictionary fetch, no
languageChanged event, and the state of the store is returned unchanged.
When the active language is itself outside the supported list, the call
first substitutes the fallback tag and is then not a no-op, as the
counterexample shows. -/
theorem setLanguage_noop_supported_active (f : String → Option JValue)
    (st : I18nState) (lang : String)
    (hsup : st.supportedLanguages.contains lang = true)
    (heq : lang = st.currentLanguage) :
    setLanguageCall f st lang = (st, Except.ok ()) := by
  subst heq
  unfold setLanguageCall setLanguageSync
  simp only [hsup, if_true]

/-- C8, counterexample.  In stC8 the active language fr is not in the
supported list; setLanguage with the active tag fr substitutes the
fallback en-SG, issues a fetch, switches the active language and emits a
languageChanged event, so the call is not a no-op. -/
theorem setLanguage_active_unsupported_cex :
    "fr" = stC8.currentLanguage ∧
    stC8.supportedLanguages.contains "fr" = false ∧
    (setLanguageCall fetchC8 stC8 "fr").1.fetchCount = stC8.fetchCount + 1 ∧
    (setLanguageCall fetchC8 stC8 "fr").1.currentLanguage = "en-SG" ∧
    (setLanguageCall fetchC8 stC8 "fr").1.events = [⟨"fr", "en-SG"⟩] :=
  ⟨rfl, rfl, rfl, rfl, rfl⟩

/-- C8, witness.  Re-requesting the active supported language of stC3 is
a no-op even under a fetch behaviour that would fail. -/
theorem setLanguage_noop_supported_active_witness :
    stC3.supportedLanguages.contains "en-SG" = true ∧
    setLanguageCall fetchFail stC3 "en-SG" = (stC3, Except.ok ()) :=
  ⟨rfl, setLanguage_noop_supported_active fetchFail stC3 "en-SG" rfl rfl⟩

/-- C4.  When setLanguage is called with a supported, not yet active and
not yet cached tag, no load is in flight for it, its fetch fails, and no
fallback dictionary is cached, then the active language and the emitted
events are unchanged and the error is surfaced to the caller. -/
theorem setLanguage_failure_leaves_state (f : String → Option JValue)
    (st : I18nState) (lang : String)
    (hsup : st.supportedLanguages.contains lang = true)
    (hne : lang ≠ st.currentLanguage)
    (hnc : lookupField st.translations lang = none)
    (hnp : st.translationPromises.contains lang = false)
    (hf : f lang = none)
    (hnfb : lookupField st.translations st.fallbackLanguage = none) :
    (setLanguageCall f st lang).1.currentLanguage = st.currentLanguage ∧
    (setLanguageCall f st lang).1.events = st.events ∧
    (setLanguageCall f st lang).2 = Except.error lang := by
  have hsync : setLanguageSync st lang =
      ({ st with
          fetchCount := st.fetchCount + 1,
          translationPromises := lang :: st.translationPromises },
        some ⟨lang, LoadMode.creator⟩) := by
    have hsup2 : lang ∈ st.supportedLanguages := by simpa using hsup
    have hnp2 : lang ∉ st.translationPromises := by simpa using hnp
    unfold setLanguageSync
    simp [hsup2, hne, hnc, hnp2]
  have houtcome : fetchTranslationsOutcome f
      { st with
          fetchCount := st.fetchCount + 1,
          translationPromises := lang :: st.translationPromises } lang = none := by
    unfold fetchTranslationsOutcome
    simp only [hf]
    by_cases h : lang = st.fallbackLanguage
    · simp [h]
    · simp [h, hnfb]
  unfold setLanguageCall
  rw [hsync]
  unfold setLanguageResume
  simp [houtcome]

/-- C4, witness.  Requesting es-MX on the empty store stC4 under an
always-failing fetch leaves the active language and events unchanged and
surfaces the error. -/
theorem setLanguage_failure_leaves_state_witness :
    ("es-MX" ≠ stC4.currentLanguage) ∧
    (setLanguageCall fetchFail stC4 "es-MX").1.currentLanguage = stC4.currentLanguage ∧
    (setLanguageCall fetchFail stC4 "es-MX").1.events = stC4.events ∧
    (setLanguageCall fetchFail stC4 "es-MX").2 = Except.error "es-MX" :=
  ⟨by decide,
   setLanguage_failure_leaves_state fetchFail stC4 "es-MX" rfl (by decide) rfl rfl rfl rfl⟩

/-- C3, amended.  Two setLanguage calls for the same supported, not yet
active and not yet cached tag, issued in rapid succession before either
load completes, with the fetch for that tag succeeding, produce exactly
one network fetch, but two languageChanged events rather than one: the
first carries the old tag as previous and the new tag as current, while
the second call, which joined the pending load and does not re-check the
active language after its await, emits a second event whose previous and
current fields both hold the new tag.  The original claim of exactly one
languageChanged event is refuted by the counterexample. -/
theorem two_rapid_setLanguage_events (f : String → Option JValue)
    (st0 : I18nState) (lang : String) (d : JValue)
    (hsup : st0.supportedLanguages.contains lang = true)
    (hne : lang ≠ st0.currentLanguage)
    (hnc : lookupField st0.translations lang = none)
    (hnp : st0.translationPromises = [])
    (hf : f lang = some d) :
    (twoRapidSetLanguage f st0 lang).fetchCount = st0.fetchCount + 1 ∧
    (twoRapidSetLanguage f st0 lang).events =
      st0.events ++ [⟨st0.currentLanguage, lang⟩, ⟨lang, lang⟩] ∧
    (twoRapidSetLanguage f st0 lang).currentLanguage = lang := by
  have hsup2 : lang ∈ st0.supportedLanguages := by simpa using hsup
  have hsync1 : setLanguageSync st0 lang =
      ({ st0 with
          fetchCount := st0.fetchCount + 1,
          translationPromises := [lang] },
        some ⟨lang, LoadMode.creator⟩) := by
    unfold setLanguageSync
    simp [hsup2, hne, hnc, hnp]
  have hsync2 : setLanguageSync
      { st0 with
          fetchCount := st0.fetchCount + 1,
          translationPromises := [lang] } lang =
      ({ st0 with
          fetchCount := st0.fetchCount + 1,
          translationPromises := [lang] },
        some ⟨lang, LoadMode.joiner⟩) := by
    unfold setLanguageSync
    simp [hsup2, hne, hnc]
  unfold twoRapidSetLanguage
  rw [hsync1]
  dsimp only
  rw [hsync2]
  dsimp only
  unfold setLanguageResume
  dsimp only
  simp only [fetchTranslationsOutcome, hf]
  dsimp only [applyLanguageChange]
  simp

/-- C3, counterexample.  Two rapid setLanguage calls for es-MX on stC3
collapse into one fetch, but the run emits two languageChanged events
with current es-MX, refuting the claimed exactly-one event: the second
event carries es-MX as both previous and current. -/
theorem two_rapid_setLanguage_cex :
    (twoRapidSetLanguage fetchC3 stC3 "es-MX").fetchCount = 1 ∧
    ((twoRapidSetLanguage fetchC3 stC3 "es-MX").events.filter
        (fun e => e.current == "es-MX")).length ≠ 1 ∧
    (twoRapidSetLanguage fetchC3 stC3 "es-MX").events =
      [⟨"en-SG", "es-MX"⟩, ⟨"es-MX", "es-MX"⟩] := by
  refine ⟨rfl, ?_, rfl⟩
  decide

/-- C3, witness.  Applying the amended statement to stC3 yields the one
extra fetch and the two events concretely. -/
theorem two_rapid_setLanguage_events_witness :
    ("es-MX" ≠ stC3.currentLanguage) ∧
    (twoRapidSetLanguage fetchC3 stC3 "es-MX").events =
      stC3.events ++ [⟨stC3.currentLanguage, "es-MX"⟩, ⟨"es-MX", "es-MX"⟩] :=
  ⟨by decide,
   (two_rapid_setLanguage_events fetchC3 stC3 "es-MX" (JValue.obj [("k", JValue.str "v")])
      rfl (by decide) rfl rfl rfl).2.1⟩

/-- The query signal always carries the URL priority. -/
theorem detectFromURLQuery_priority (cfg : DetectorConfig) (env : BrowserEnv) :
    (detectFromURLQuery cfg env).priority = prioURL := by
  unfold detectFromURLQuery
  dsimp only
  split
  · rfl
  · split
    · rfl
    · split
      · split <;> rfl
      · rfl

/-- The URL signal always carries the URL priority. -/
theorem detectFromURL_priority (cfg : DetectorConfig) (env : BrowserEnv) :
    (detectFromURL cfg env).priority = prioURL := by
  unfold detectFromURL
  dsimp only
  split
  · split
    · rfl
    · exact detectFromURLQuery_priority cfg env
  · exact detectFromURLQuery_priority cfg env

/-- A detected query signal only carries a supported language. -/
theorem detectFromURLQuery_detected_supported (cfg : DetectorConfig) (env : BrowserEnv)
    (h : (detectFromURLQuery cfg env).detected = true) :
    cfg.supportedLanguages.contains (detectFromURLQuery cfg env).language = true := by
  revert h
  unfold detectFromURLQuery
  dsimp only
  split
  · intro h
    simp at h
  · split
    · intro h
      simp at h
    · split
      · split
        · intro h
          simp_all
        · intro h
          simp at h
      · intro h
        simp at h

/-- A detected URL signal only carries a supported language. -/
theorem detectFromURL_detected_supported (cfg : DetectorConfig) (env : BrowserEnv)
    (h : (detectFromURL cfg env).detected = true) :
    cfg.supportedLanguages.contains (detectFromURL cfg env).language = true := by
  revert h
  unfold detectFromURL
  dsimp only
  split
  · split
    · intro h
      simp_all
    · intro h
      exact detectFromURLQuery_detected_supported cfg env h
  · intro h
    exact detectFromURLQuery_detected_supported cfg env h

/-- The storage signal priority never exceeds the manual priority. -/
theorem detectFromStorage_priority_le (cfg : DetectorConfig) (env : BrowserEnv) :
    (detectFromStorage cfg env).priority ≤ prioManual := by
  unfold detectFromStorage
  dsimp only
  split
  · simp [prioStored, prioManual]
  · split
    · split <;> simp [prioStored, prioManual]
    · simp [prioStored, prioManual]

/-- The timezone signal priority never exceeds the Singapore timezone
priority. -/
theorem detectFromTimezone_priority_le (env : BrowserEnv) :
    (detectFromTimezone env).priority ≤ prioTzSingapore := by
  unfold detectFromTimezone
  dsimp only
  split
  · simp [prioTzSingapore]
  · split
    · rfl
    · split
      · simp [prioTzMexico, prioTzSingapore]
      · split
        · simp [prioTzEnglishRegion, prioTzSingapore]
        · simp [prioTzSingapore]

/-- The browser scan never produces a priority above the exact-match
priority when started from such an accumulator. -/
theorem scanBrowserLangs_priority_le (cfg : DetectorConfig) :
    ∀ ls acc, acc.priority ≤ prioBrowserExact →
      (scanBrowserLangs cfg ls acc).priority ≤ prioBrowserExact := by
  intro ls
  induction ls with
  | nil =>
    intro acc h
    simpa [scanBrowserLangs] using h
  | cons l rest ih =>
    intro acc h
    unfold scanBrowserLangs
    dsimp only
    split
    · rfl
    · split
      · exact ih _ (by simp [prioBrowserBase, prioBrowserExact])
      · exact ih _ h

/-- The browser signal priority never exceeds the exact-match priority. -/
theorem detectFromBrowser_priority_le (cfg : DetectorConfig) (env : BrowserEnv) :
    (detectFromBrowser cfg env).priority ≤ prioBrowserExact := by
  unfold detectFromBrowser
  exact scanBrowserLangs_priority_le cfg _ _ (by simp [prioBrowserExact])

/-- A signal that cannot beat the best priority leaves the best result
unchanged. -/
theorem stepSignal_skip (enabled : Bool) (best : DetectResult) (s : Signal) (gate : Bool)
    (h : s.priority ≤ best.priority) : stepSignal enabled best s gate = best := by
  unfold stepSignal considerSignal
  have hd : decide (best.priority < s.priority) = false := by
    simp only [decide_eq_false_iff_not]
    omega
  rw [hd]
  cases enabled <;> simp

/-- A false gate leaves the best result unchanged. -/
theorem stepSignal_gate_false (enabled : Bool) (best : DetectResult) (s : Signal) :
    stepSignal enabled best s false = best := by
  unfold stepSignal considerSignal
  cases enabled <;> simp

/-- With URL checking enabled and a detected URL signal, the fused best
result is the URL signal: every later source has a strictly lower
priority and the stored signal tops out at the manual priority. -/
theorem urlWinsAux (cfg : DetectorConfig) (env : BrowserEnv) (opts : DetectOptions)
    (hc : opts.checkURL = true)
    (hd : (detectFromURL cfg env).detected = true) :
    detectBest cfg env opts = signalToResult (detectFromURL cfg env) := by
  have h10 := detectFromURL_priority cfg env
  have e1 : stepSignal opts.checkURL
      ⟨cfg.defaultLanguage, some "default", prioDefaultSignal⟩
      (detectFromURL cfg env) true = signalToResult (detectFromURL cfg env) := by
    rw [hc]
    unfold stepSignal considerSignal
    rw [hd, h10]
    simp [prioDefaultSignal, prioURL]
  have hp : (signalToResult (detectFromURL cfg env)).priority = prioURL := h10
  have hb1 : (detectFromStorage cfg env).priority ≤
      (signalToResult (detectFromURL cfg env)).priority := by
    rw [hp]
    exact le_trans (detectFromStorage_priority_le cfg env) (by decide)
  have hb2 : (detectFromTimezone env).priority ≤
      (signalToResult (detectFromURL cfg env)).priority := by
    rw [hp]
    exact le_trans (detectFromTimezone_priority_le env) (by decide)
  have hb3 : (detectFromBrowser cfg env).priority ≤
      (signalToResult (detectFromURL cfg env)).priority := by
    rw [hp]
    exact le_trans (detectFromBrowser_priority_le cfg env) (by decide)
  have hb4 : (detectFromGeolocation env).priority ≤
      (signalToResult (detectFromURL cfg env)).priority := by
    rw [hp]
    show prioGeolocation ≤ prioURL
    decide
  have e2 := stepSignal_skip (opts.checkStorage && opts.respectUserChoice)
    (signalToResult (detectFromURL cfg env)) (detectFromStorage cfg env)
    (isRecentDetection env) hb1
  have e3 := stepSignal_skip opts.checkTimezone
    (signalToResult (detectFromURL cfg env)) (detectFromTimezone env) true hb2
  have e4 := stepSignal_skip opts.checkBrowser
    (signalToResult (detectFromURL cfg env)) (detectFromBrowser cfg env) true hb3
  have e5 := stepSignal_skip opts.checkGeolocation
    (signalToResult (detectFromURL cfg env)) (detectFromGeolocation env) true hb4
  unfold detectBest
  rw [e1, e2, e3, e4, e5]

/-- C2, counterexample.  In envC2 the URL path selects en-GB while a
recent stored manual override selects es-MX; both signals are detected,
yet the resolution chooses the URL language en-GB, because the fixed
priorities place url at 10 above manual at 9.  This refutes the claim
that a manual override outranks the URL signal. -/
theorem detect_manual_beats_url_cex :
    (detectFromURL defaultDetectorConfig envC2).detected = true ∧
    (detectFromURL defaultDetectorConfig envC2).language = "en-GB" ∧
    (detectFromStorage defaultDetectorConfig envC2).detected = true ∧
    (detectFromStorage defaultDetectorConfig envC2).isUserOverride = true ∧
    (detectFromStorage defaultDetectorConfig envC2).language = "es-MX" ∧
    isRecentDetection envC2 = true ∧
    (detectLanguage defaultDetectorConfig envC2 defaultDetectOptions).1.language = "en-GB" ∧
    "en-GB" ≠ "es-MX" := by
  refine ⟨rfl, rfl, by decide, by decide, by decide, rfl, rfl, by decide⟩

/-- C2, amended.  Whenever both a URL signal and a manual user-override
storage signal are detected, the resolution chooses the URL language:
url priority 10 strictly exceeds manual priority 9, so the URL signal
wins, not the manual override. -/
theorem detect_url_beats_manual (cfg : DetectorConfig) (env : BrowserEnv)
    (opts : DetectOptions)
    (hc : opts.checkURL = true)
    (hu : (detectFromURL cfg env).detected = true)
    (hm : (detectFromStorage cfg env).detected = true)
    (hov : (detectFromStorage cfg env).isUserOverride = true) :
    (detectLanguage cfg env opts).1.language = (detectFromURL cfg env).language := by
  have hbest := urlWinsAux cfg env opts hc hu
  have hsup := detectFromURL_detected_supported cfg env hu
  unfold detectLanguage
  dsimp only
  rw [hbest]
  have hsup2 : cfg.supportedLanguages.contains
      (signalToResult (detectFromURL cfg env)).language = true := hsup
  rw [if_pos hsup2]
  rfl

/-- C2, witness.  In envC2 both signals are present and the resolution
follows the URL. -/
theorem detect_url_beats_manual_witness :
    (detectFromURL defaultDetectorConfig envC2).detected = true ∧
    (detectFromStorage defaultDetectorConfig envC2).isUserOverride = true ∧
    (detectLanguage defaultDetectorConfig envC2 defaultDetectOptions).1.language
      = (detectFromURL defaultDetectorConfig envC2).language :=
  ⟨rfl, by decide,
   detect_url_beats_manual defaultDetectorConfig envC2 defaultDetectOptions
     rfl rfl (by decide) (by decide)⟩

/-- C6.  For every supported tag, when the URL signal detects that tag
during detectLanguage, the detection result carries that tag, whatever
the stored, timezone, browser or geolocation signals report: the URL
priority 10 is the strict maximum of all signal priorities, and a
detected URL language always passes the final supported-language
validation. -/
theorem detect_url_top_priority (cfg : DetectorConfig) (env : BrowserEnv)
    (opts : DetectOptions) (t : String)
    (hts : cfg.supportedLanguages.contains t = true)
    (hc : opts.checkURL = true)
    (hu : (detectFromURL cfg env).detected = true)
    (hl : (detectFromURL cfg env).language = t) :
    (detectLanguage cfg env opts).1.language = t := by
  have hbest := urlWinsAux cfg env opts hc hu
  have hsup := detectFromURL_detected_supported cfg env hu
  unfold detectLanguage
  dsimp only
  rw [hbest]
  have hsup2 : cfg.supportedLanguages.contains
      (signalToResult (detectFromURL cfg env)).language = true := hsup
  rw [if_pos hsup2]
  exact hl

/-- C6, witness.  The URL signal of envC2 detects the supported tag
en-GB and the resolution returns it. -/
theorem detect_url_top_priority_witness :
    defaultDetectorConfig.supportedLanguages.contains "en-GB" = true ∧
    (detectFromURL defaultDetectorConfig envC2).detected = true ∧
    (detectLanguage defaultDetectorConfig envC2 defaultDetectOptions).1.language = "en-GB" :=
  ⟨rfl, rfl,
   detect_url_top_priority defaultDetectorConfig envC2 defaultDetectOptions "en-GB"
     rfl rfl rfl rfl⟩

/-- C7.  When a stored preference exists but its timestamp fails the
thirty-day recency check, and neither a URL signal nor a manual override
is in play, the resolution ignores the stored value entirely: it equals
the resolution run with the storage source disabled, falling through to
the timezone or browser signals or the default. -/
theorem detect_stale_storage_ignored (cfg : DetectorConfig) (env : BrowserEnv)
    (opts : DetectOptions)
    (hs : (detectFromStorage cfg env).detected = true)
    (hnov : (detectFromStorage cfg env).isUserOverride = false)
    (hurl : (detectFromURL cfg env).detected = false)
    (hrec : isRecentDetection env = false) :
    detectLanguage cfg env opts =
      detectLanguage cfg env { opts with checkStorage := false } := by
  have hbest : detectBest cfg env opts =
      detectBest cfg env { opts with checkStorage := false } := by
    unfold detectBest
    dsimp only
    rw [hrec]
    rw [stepSignal_gate_false, stepSignal_gate_false]
  unfold detectLanguage
  rw [hbest]

/-- C7, witness.  In envC7 the stored es-MX preference is stale, no URL
or manual signal is detected, and the resolution coincides with the
storage-disabled run, landing on the Singapore timezone signal. -/
theorem detect_stale_storage_ignored_witness :
    (detectFromStorage defaultDetectorConfig envC7).detected = true ∧
    isRecentDetection envC7 = false ∧
    detectLanguage defaultDetectorConfig envC7 defaultDetectOptions =
      detectLanguage defaultDetectorConfig envC7
        { defaultDetectOptions with checkStorage := false } ∧
    (detectLanguage defaultDetectorConfig envC7 defaultDetectOptions).1.language = "en-GB" :=
  ⟨by decide, by decide,
   detect_stale_storage_ignored defaultDetectorConfig envC7 defaultDetectOptions
     (by decide) (by decide) (by decide) (by decide),
   by decide⟩

/-- C9.  Every detectLanguage pass persists its result with the
user-override flag set to the string false, whatever override flag was
stored before; consequently the stored preference is treated by the next
resolution pass at the ordinary stored priority 8, not the manual
priority, and its signal does not carry the override mark. -/
theorem detect_persists_override_false (cfg : DetectorConfig) (env : BrowserEnv)
    (opts : DetectOptions) :
    (detectLanguage cfg env opts).2.userOverride = some "false" ∧
    (detectFromStorage cfg
      { env with storage := (detectLanguage cfg env opts).2 }).isUserOverride = false ∧
    (detectFromStorage cfg
      { env with storage := (detectLanguage cfg env opts).2 }).priority = prioStored := by
  have hov2 : (detectLanguage cfg env opts).2.userOverride = some "false" := rfl
  refine ⟨rfl, ?_, ?_⟩
  · unfold detectFromStorage
    dsimp only
    split
    · rfl
    · split
      · simp [hov2]
      · rfl
  · unfold detectFromStorage
    dsimp only
    split
    · rfl
    · split
      · simp [hov2]
      · rfl

/-- The browser scan returns the exact-match signal of the first list
entry whose normalized full tag is supported, whatever was accumulated
before it. -/
theorem scanBrowserLangs_first_exact (cfg : DetectorConfig) :
    ∀ ls acc le, ls.find? (isExactMatch cfg) = some le →
      scanBrowserLangs cfg ls acc = exactSignal le := by
  intro ls
  induction ls with
  | nil =>
    intro acc le h
    simp at h
  | cons l rest ih =>
    intro acc le h
    unfold scanBrowserLangs
    dsimp only
    by_cases hx : isExactMatch cfg l = true
    · rw [List.find?_cons_of_pos _ hx] at h
      injection h with h
      subst h
      unfold isExactMatch at hx
      rw [if_pos hx]
      rfl
    · have hx2 : isExactMatch cfg l = false := by simpa using hx
      rw [List.find?_cons_of_neg _ hx] at h
      unfold isExactMatch at hx2
      rw [if_neg (by rw [hx2]; simp)]
      split
      · exact ih _ _ h
      · exact ih _ _ h

/-- When no list entry is an exact match, the browser scan returns the
base-match signal of the last base-matching entry, or the accumulator
when there is none: each base match overwrites the one before it. -/
theorem scanBrowserLangs_no_exact (cfg : DetectorConfig) :
    ∀ ls acc, (∀ l ∈ ls, isExactMatch cfg l = false) →
      scanBrowserLangs cfg ls acc =
        ((ls.filter (isBaseMatch cfg)).getLast?.elim acc baseSignal) := by
  intro ls
  induction ls with
  | nil =>
    intro acc hne
    simp [scanBrowserLangs]
  | cons l rest ih =>
    intro acc hne
    have hl : isExactMatch cfg l = false := hne l (List.mem_cons_self l rest)
    have hrest : ∀ x ∈ rest, isExactMatch cfg x = false :=
      fun x hx => hne x (List.mem_cons_of_mem l hx)
    unfold scanBrowserLangs
    dsimp only
    unfold isExactMatch at hl
    rw [if_neg (by rw [hl]; simp)]
    by_cases hb : isBaseMatch cfg l = true
    · rw [List.filter_cons_of_pos hb]
      have hb2 := hb
      unfold isBaseMatch at hb2
      rw [if_pos hb2]
      rw [ih _ hrest]
      rw [List.getLast?_cons]
      cases hx : (rest.filter (isBaseMatch cfg)).getLast? with
      | none => simp [hx, baseSignal]
      | some lb => simp [hx, baseSignal]
    · have hb2 : isBaseMatch cfg l = false := by simpa using hb
      rw [List.filter_cons_of_neg hb]
      unfold isBaseMatch at hb2
      rw [if_neg (by rw [hb2]; simp)]
      exact ih _ hrest

/-- C5, amended.  Browser-language detection prefers an exact supported
match anywhere in the ordered list over any base-language match, and the
first exact entry wins; but among several base-language matches with no
exact match anywhere, the LAST base-matching entry of the list wins, not
the earliest, because each base match overwrites the previous one while
the scan keeps looking for exact matches.  The original earliest-wins
claim for base matches is refuted by the counterexample. -/
theorem browser_match_order (cfg : DetectorConfig) (env : BrowserEnv) :
    (∀ le, env.browserLanguages.find? (isExactMatch cfg) = some le →
       detectFromBrowser cfg env = exactSignal le) ∧
    ((∀ l ∈ env.browserLanguages, isExactMatch cfg l = false) →
     ∀ lb, (env.browserLanguages.filter (isBaseMatch cfg)).getLast? = some lb →
       detectFromBrowser cfg env = baseSignal lb) := by
  constructor
  · intro le h
    unfold detectFromBrowser
    exact scanBrowserLangs_first_exact cfg _ _ le h
  · intro hne lb hlb
    unfold detectFromBrowser
    rw [scanBrowserLangs_no_exact cfg _ _ hne, hlb]
    rfl

/-- C5, counterexample.  Under cfgBase the list of envC5 holds two
base-language matches, en-US first and es-AR second, with no exact match;
the detected browser language is es, the base of the LAST entry, not en,
the base of the earliest entry, refuting the earliest-entry-wins claim
for base matches. -/
theorem browser_base_tie_cex :
    envC5.browserLanguages = ["en-US", "es-AR"] ∧
    isExactMatch cfgBase "en-US" = false ∧
    isExactMatch cfgBase "es-AR" = false ∧
    isBaseMatch cfgBase "en-US" = true ∧
    isBaseMatch cfgBase "es-AR" = true ∧
    (normalizeBrowserLanguage "en-US").base = "en" ∧
    (detectFromBrowser cfgBase envC5).detected = true ∧
    (detectFromBrowser cfgBase envC5).language = "es" ∧
    "es" ≠ "en" := by
  refine ⟨rfl, rfl, rfl, rfl, rfl, rfl, rfl, rfl, by decide⟩

/-- C5, witness.  Applying the amended statement to envC5 yields the
last base match es. -/
theorem browser_match_order_witness :
    (∀ l ∈ envC5.browserLanguages, isExactMatch cfgBase l = false) ∧
    (envC5.browserLanguages.filter (isBaseMatch cfgBase)).getLast? = some "es-AR" ∧
    (detectFromBrowser cfgBase envC5).language = "es" := by
  refine ⟨by decide, by decide, ?_⟩
  have h := (browser_match_order cfgBase envC5).2 (by decide) "es-AR" (by decide)
  rw [h]
  rfl
